import Mathlib

/-!
Shallow embedding of `src/download/db.py` of the Fairdata Download Service:
the SQLite-backed persistence layer for download tokens, package-generation
tasks, their file scopes, and produced packages.

Each table is a list of typed rows kept in insertion (rowid) order; SQL
table scans, WHERE filters, and the one nested-loop join are the
corresponding list operations in the same order, and `fetchone` is `head?`
or `find?`. Timestamps are the TEXT values SQLite stores for them,
compared as the engine compares TEXT (lexicographically). A nullable
column is an `Option`.

The repository's schema script `create_tables.sql` is referenced by
`init_db` but is not among the source files, so the schema constraints
and column defaults it declares are modelled from the spec where a
definition needs them; each such definition says so in its doc comment.
-/

namespace Download

/-- Row of the `download` table: `download(token PK, filename)`. -/
structure DownloadRow where
  token : String
  filename : String
deriving DecidableEq

/-- Row of the `generate_task` table:
`generate_task(task_id PK, dataset_id, status, is_partial, initiated, date_done)`.
`status` and `date_done` are nullable. -/
structure GenerateTaskRow where
  dataset_id : String
  task_id : String
  status : Option String
  is_partial : Bool
  initiated : String
  date_done : Option String
deriving DecidableEq

/-- Row of the `generate_scope` table: `generate_scope(task_id FK, filepath)`. -/
structure GenerateScopeRow where
  task_id : String
  filepath : String
deriving DecidableEq

/-- Row of the `package` table:
`package(filename, size_bytes, checksum, generated_by FK)`. -/
structure PackageRow where
  filename : String
  size_bytes : Nat
  checksum : String
  generated_by : String
deriving DecidableEq

/-- The relational store: the four tables of the service's database. -/
structure DB where
  download : List DownloadRow
  generate_task : List GenerateTaskRow
  generate_scope : List GenerateScopeRow
  package : List PackageRow
deriving DecidableEq

/-- The empty database, as produced by a fresh `init_db`. -/
def emptyDB : DB := ⟨[], [], [], []⟩

/-- Error kinds surfaced by the storage engine to this layer.
`ConstraintViolation` is sqlite3.IntegrityError: a uniqueness or key
constraint rejected an INSERT. -/
inductive SqlError where
  | ConstraintViolation
deriving DecidableEq

/-- Models `get_download_record`: `SELECT * FROM download WHERE token = ?` then
`fetchone()` — the first row in scan order with the given token, or NULL
(`none`) when no row matches. -/
def get_download_record (db : DB) (token : String) : Option DownloadRow :=
  db.download.find? (fun row => row.token == token)

/-- SQLite truth value of the predicate `status is not "FAILURE"` used by
`get_task_rows`: the double-quoted `"FAILURE"` falls back to a string
literal (no column of that name exists), and `IS NOT` — unlike `<>` — is
true when the left operand is NULL. -/
def sqliteIsNotFailure : Option String → Bool
  | none => true
  | some s => s != "FAILURE"

/-- Models `get_task_rows`: the rows of `generate_task` for `dataset_id` whose
status passes `status is not "FAILURE"` (see `sqliteIsNotFailure`) and
whose `initiated` is strictly greater than `initiated_after` (TEXT
comparison), in scan order, via `fetchall()`. The SQL projects five of
the six columns; the model returns the full rows, which carry them. -/
def get_task_rows (db : DB) (dataset_id : String)
    (initiated_after : String := "") : List GenerateTaskRow :=
  db.generate_task.filter (fun row =>
    row.dataset_id == dataset_id && sqliteIsNotFailure row.status &&
      decide (initiated_after < row.initiated))

/-- Models `get_package_row`: `SELECT ... FROM package WHERE generated_by = ?`
then `fetchone()`. The SQL projects filename, size_bytes and checksum;
the model returns the full row, which carries them. -/
def get_package_row (db : DB) (generated_by : String) : Option PackageRow :=
  db.package.find? (fun row => row.generated_by == generated_by)

/-- Models `get_generate_scope_filepaths`: selects the `filepath` of every
`generate_scope` row with the given task id and collects them with
Python's `set(...)` — modelled as a `Finset`. -/
def get_generate_scope_filepaths (db : DB) (task_id : String) :
    Finset String :=
  ((db.generate_scope.filter (fun row => row.task_id == task_id)).map
    (fun row => row.filepath)).toFinset

/-- The nested-loop join `FROM generate_task t JOIN package p` before its
ON conditions are applied: every (task, package) pair in scan order. -/
def joinTaskPackage (db : DB) : List (GenerateTaskRow × PackageRow) :=
  db.generate_task.flatMap (fun t => db.package.map (fun p => (t, p)))

/-- Models `get_task_for_package`: joins `generate_task` and `package` on
`t.dataset_id = ? AND p.filename = ? AND t.task_id = p.generated_by`,
takes the first joined row (`fetchone`), and yields its `t.initiated`. -/
def get_task_for_package (db : DB) (dataset_id package : String) :
    Option String :=
  (((joinTaskPackage db).filter (fun tp =>
      tp.1.dataset_id == dataset_id && tp.2.filename == package &&
        tp.1.task_id == tp.2.generated_by)).head?).map
    (fun tp => tp.1.initiated)

/-- Modelled from the spec: `create_tables.sql` is not among the source
files; the spec declares the schema `download(token PK, filename)`, so an
INSERT with an already-present token violates the primary-key
constraint. -/
def downloadTokenTaken (db : DB) (token : String) : Bool :=
  db.download.any (fun row => row.token == token)

/-- Models `create_download_record`: `INSERT INTO download (token, filename)`
followed by `commit()`. A single-statement transaction: on success the
returned store is the committed store; on a constraint violation the
error propagates and nothing is committed. -/
def create_download_record (db : DB) (token filename : String) :
    Except SqlError DB :=
  if downloadTokenTaken db token then
    .error .ConstraintViolation
  else
    .ok { db with download := db.download ++ [⟨token, filename⟩] }

/-- One unit of work's view of the store, through its single connection:
`committed` is what every other unit of work sees, `pending` is this
connection's own view, including writes executed but not yet committed
(read-your-writes). At the start of a unit of work the two coincide. -/
structure Conn where
  committed : DB
  pending : DB
deriving DecidableEq

/-- Modelled from the spec: the schema file is absent from the source;
the spec declares `task_id` a primary key of `generate_task`, so
inserting a duplicate task id violates the constraint. Executes the
task-row INSERT of `create_task_rows` against an uncommitted table. -/
def insertTask (tbl : List GenerateTaskRow) (row : GenerateTaskRow) :
    Except SqlError (List GenerateTaskRow) :=
  if tbl.any (fun r => r.task_id == row.task_id) then
    .error .ConstraintViolation
  else
    .ok (tbl ++ [row])

/-- Modelled from the spec: the schema file is absent from the source;
the spec declares composite uniqueness on `(task_id, filepath)` in
`generate_scope`, so a duplicate scope entry violates the constraint.
Executes one scope-row INSERT against an uncommitted table. -/
def insertScope (tbl : List GenerateScopeRow) (row : GenerateScopeRow) :
    Except SqlError (List GenerateScopeRow) :=
  if tbl.any (fun r => r.task_id == row.task_id && r.filepath == row.filepath) then
    .error .ConstraintViolation
  else
    .ok (tbl ++ [row])

/-- The scope-row INSERT loop of `create_task_rows`, against the
uncommitted table. When an insert fails, the loop stops and reports the
error together with the rows written before the fault — they stay in the
connection's uncommitted view, since the exception skips the commit. -/
def insertScopes (tbl : List GenerateScopeRow) (task_id : String) :
    List String → List GenerateScopeRow × Option SqlError
  | [] => (tbl, none)
  | fp :: rest =>
    match insertScope tbl ⟨task_id, fp⟩ with
    | .error e => (tbl, some e)
    | .ok tbl' => insertScopes tbl' task_id rest

/-- Models `create_task_rows`: INSERTs one `generate_task` row with status
'PENDING', then one `generate_scope` row per filepath of
`generate_scope` (the parameter keeps the source's name), then
`commit()`, then re-SELECTs the task row by id with `fetchone()`.
The INSERT supplies dataset_id, task_id, status and is_partial;
modelled from the spec for the absent schema file: `initiated` defaults
to the current time (the explicit `now` argument here) and `date_done`
to NULL. A constraint violation raises before the commit is reached:
the committed store is untouched and the writes made so far stay only
in the connection's uncommitted view. -/
def create_task_rows (conn : Conn) (dataset_id task_id : String)
    ( is_partial : Bool) (generate_scope : List String) (now : String) :
    Conn × Except SqlError (Option GenerateTaskRow) :=
  let taskRow : GenerateTaskRow :=
    ⟨dataset_id, task_id, some "PENDING", is_partial, now, none⟩
  match insertTask conn.pending.generate_task taskRow with
  | .error e => (conn, .error e)
  | .ok tasks1 =>
    match insertScopes conn.pending.generate_scope task_id generate_scope with
    | (scopes1, some e) =>
      ({ conn with pending :=
          { conn.pending with generate_task := tasks1, generate_scope := scopes1 } },
        .error e)
    | (scopes1, none) =>
      let db' : DB :=
        { conn.pending with generate_task := tasks1, generate_scope := scopes1 }
      (⟨db', db'⟩,
        .ok (db'.generate_task.find? (fun r => r.task_id == task_id)))

/-- The per-unit-of-work connection bookkeeping behind `get_db` and
`close_db`: Flask's `g` is the `db` slot holding the connection handle
(if one was opened), `nextHandle` distinguishes physical connections,
and the two counters record how many physical connects and disconnects
the unit of work has performed. -/
structure GState where
  db : Option Nat
  nextHandle : Nat
  connectCount : Nat
  closeCount : Nat
deriving DecidableEq

/-- Models `get_db`: returns the connection from `g` when one is present;
otherwise opens a new physical connection, stores it in `g.db`, and
returns it. -/
def get_db (s : GState) : GState × Nat :=
  match s.db with
  | some h => (s, h)
  | none =>
    (⟨some s.nextHandle, s.nextHandle + 1, s.connectCount + 1, s.closeCount⟩,
      s.nextHandle)

/-- Models `close_db`: pops `db` from `g`; when a connection was present, closes
it, otherwise does nothing. -/
def close_db (s : GState) : GState :=
  match s.db with
  | none => s
  | some _ => { s with db := none, closeCount := s.closeCount + 1 }

/-- Iterates `get_db` `n` times within one unit of work, keeping only
the state. -/
def get_db_iterate : Nat → GState → GState
  | 0, s => s
  | n + 1, s => get_db_iterate n (get_db s).1

/-! Helper lemmas shared by the theorems below. -/

lemma mem_get_task_rows {db : DB} {dataset_id T : String}
    {r : GenerateTaskRow} :
    r ∈ get_task_rows db dataset_id T ↔
      r ∈ db.generate_task ∧ r.dataset_id = dataset_id ∧
        r.status ≠ some "FAILURE" ∧ T < r.initiated := by
  unfold get_task_rows
  rw [List.mem_filter]
  have hstatus : sqliteIsNotFailure r.status = true ↔ r.status ≠ some "FAILURE" := by
    cases h : r.status with
    | none => simp [sqliteIsNotFailure]
    | some s =>
      simp only [sqliteIsNotFailure, bne_iff_ne, ne_eq, Option.some.injEq]
  constructor
  · rintro ⟨hmem, hcond⟩
    simp only [Bool.and_eq_true, beq_iff_eq, decide_eq_true_eq] at hcond
    exact ⟨hmem, hcond.1.1, hstatus.mp hcond.1.2, hcond.2⟩
  · rintro ⟨hmem, hds, hst, hinit⟩
    refine ⟨hmem, ?_⟩
    simp only [Bool.and_eq_true, beq_iff_eq, decide_eq_true_eq]
    exact ⟨⟨hds, hstatus.mpr hst⟩, hinit⟩

lemma get_download_record_eq_none {db : DB} {token : String}
    (h : ∀ r ∈ db.download, r.token ≠ token) :
    get_download_record db token = none := by
  unfold get_download_record
  rw [List.find?_eq_none]
  intro r hr
  simpa using h r hr

lemma get_package_row_eq_none {db : DB} {generated_by : String}
    (h : ∀ r ∈ db.package, r.generated_by ≠ generated_by) :
    get_package_row db generated_by = none := by
  unfold get_package_row
  rw [List.find?_eq_none]
  intro r hr
  simpa using h r hr

lemma mem_joinTaskPackage {db : DB} {t : GenerateTaskRow} {p : PackageRow} :
    (t, p) ∈ joinTaskPackage db ↔ t ∈ db.generate_task ∧ p ∈ db.package := by
  unfold joinTaskPackage
  simp only [List.mem_flatMap, List.mem_map, Prod.mk.injEq]
  constructor
  · rintro ⟨a, ha, b, hb, hat, hbp⟩
    exact ⟨hat ▸ ha, hbp ▸ hb⟩
  · rintro ⟨ht, hp⟩
    exact ⟨t, ht, p, hp, rfl, rfl⟩

lemma mem_tfp_filter {db : DB} {dataset_id package : String}
    {tp : GenerateTaskRow × PackageRow} :
    tp ∈ (joinTaskPackage db).filter (fun tp =>
        tp.1.dataset_id == dataset_id && tp.2.filename == package &&
          tp.1.task_id == tp.2.generated_by) ↔
      tp.1 ∈ db.generate_task ∧ tp.2 ∈ db.package ∧
        tp.1.dataset_id = dataset_id ∧ tp.2.filename = package ∧
          tp.1.task_id = tp.2.generated_by := by
  rw [List.mem_filter]
  cases tp with
  | mk t p =>
    simp only [Bool.and_eq_true, beq_iff_eq, mem_joinTaskPackage]
    tauto

lemma get_task_for_package_eq_none {db : DB} {dataset_id package : String}
    (h : ¬ ∃ t ∈ db.generate_task, ∃ p ∈ db.package,
        t.dataset_id = dataset_id ∧ p.filename = package ∧
          t.task_id = p.generated_by) :
    get_task_for_package db dataset_id package = none := by
  unfold get_task_for_package
  have hnil : (joinTaskPackage db).filter (fun tp =>
      tp.1.dataset_id == dataset_id && tp.2.filename == package &&
        tp.1.task_id == tp.2.generated_by) = [] := by
    rw [List.filter_eq_nil_iff]
    intro tp hmem hcond
    have : tp ∈ (joinTaskPackage db).filter (fun tp =>
        tp.1.dataset_id == dataset_id && tp.2.filename == package &&
          tp.1.task_id == tp.2.generated_by) :=
      List.mem_filter.mpr ⟨hmem, hcond⟩
    obtain ⟨ht, hp, hds, hfn, hlink⟩ := mem_tfp_filter.mp this
    exact h ⟨tp.1, ht, tp.2, hp, hds, hfn, hlink⟩
  rw [hnil]
  rfl

lemma empty_lt_sample : ("" : String) < "2024-05-01 10:00:00" := by
  rw [String.lt_iff_toList_lt]
  decide

/-! Theorems for the claims, with witnesses. -/

/-- C3: every row returned by `get_task_rows db dataset_id T` belongs to
the queried dataset, never has status FAILURE, and never has
`initiated ≤ T` — the filter on `initiated` is strictly greater. -/
theorem get_task_rows_only_matching (db : DB) (dataset_id T : String)
    (r : GenerateTaskRow) (hr : r ∈ get_task_rows db dataset_id T) :
    r.dataset_id = dataset_id ∧ r.status ≠ some "FAILURE" ∧
      T < r.initiated ∧ ¬ r.initiated ≤ T := by
  obtain ⟨-, hds, hst, hinit⟩ := mem_get_task_rows.mp hr
  exact ⟨hds, hst, hinit, not_le.mpr hinit⟩

/-- Witness for C3 at a one-task store. -/
theorem get_task_rows_only_matching_witness :
    (⟨"D1", "T1", some "PENDING", false, "2024-05-01 10:00:00", none⟩ :
        GenerateTaskRow).dataset_id = "D1" ∧
      (⟨"D1", "T1", some "PENDING", false, "2024-05-01 10:00:00", none⟩ :
        GenerateTaskRow).status ≠ some "FAILURE" ∧
      "" < (⟨"D1", "T1", some "PENDING", false, "2024-05-01 10:00:00", none⟩ :
        GenerateTaskRow).initiated ∧
      ¬ (⟨"D1", "T1", some "PENDING", false, "2024-05-01 10:00:00", none⟩ :
        GenerateTaskRow).initiated ≤ "" :=
  get_task_rows_only_matching
    ⟨[], [⟨"D1", "T1", some "PENDING", false, "2024-05-01 10:00:00", none⟩], [], []⟩
    "D1" "" ⟨"D1", "T1", some "PENDING", false, "2024-05-01 10:00:00", none⟩
    (mem_get_task_rows.mpr ⟨by decide, rfl, by decide, empty_lt_sample⟩)

/-- C10: the filter of `get_task_rows` excludes exactly the rows whose status is the
string 'FAILURE'; a row of the queried dataset with NULL (unset) status
and recent-enough `initiated` is still returned, because SQLite's
`IS NOT` holds on a NULL left operand. -/
theorem get_task_rows_null_status (db : DB) (dataset_id T : String)
    (r : GenerateTaskRow) :
    (r ∈ get_task_rows db dataset_id T ↔
      r ∈ db.generate_task ∧ r.dataset_id = dataset_id ∧
        r.status ≠ some "FAILURE" ∧ T < r.initiated) ∧
    (r ∈ db.generate_task → r.dataset_id = dataset_id → r.status = none →
      T < r.initiated → r ∈ get_task_rows db dataset_id T) := by
  refine ⟨mem_get_task_rows, fun hmem hds hnull hinit => ?_⟩
  exact mem_get_task_rows.mpr ⟨hmem, hds, by simp [hnull], hinit⟩

/-- Witness for C10: a NULL-status task is returned. -/
theorem get_task_rows_null_status_witness :
    (⟨"D1", "T2", none, false, "2024-05-01 10:00:00", none⟩ : GenerateTaskRow) ∈
      get_task_rows ⟨[], [⟨"D1", "T2", none, false, "2024-05-01 10:00:00", none⟩], [], []⟩
        "D1" "" :=
  (get_task_rows_null_status
      ⟨[], [⟨"D1", "T2", none, false, "2024-05-01 10:00:00", none⟩], [], []⟩
      "D1" "" ⟨"D1", "T2", none, false, "2024-05-01 10:00:00", none⟩).2
    (by decide) rfl rfl empty_lt_sample

/-- C9: each lookup — download record by token, package row by task,
task-for-package by dataset and filename — yields the empty result
(`none`) when no matching row exists, rather than an error. -/
theorem lookups_absent_give_none (db : DB)
    (token generated_by dataset_id package : String) :
    ((∀ r ∈ db.download, r.token ≠ token) →
      get_download_record db token = none) ∧
    ((∀ r ∈ db.package, r.generated_by ≠ generated_by) →
      get_package_row db generated_by = none) ∧
    ((¬ ∃ t ∈ db.generate_task, ∃ p ∈ db.package,
        t.dataset_id = dataset_id ∧ p.filename = package ∧
          t.task_id = p.generated_by) →
      get_task_for_package db dataset_id package = none) :=
  ⟨get_download_record_eq_none, get_package_row_eq_none,
    get_task_for_package_eq_none⟩

/-- Witness for C9 at the empty store. -/
theorem lookups_absent_give_none_witness :
    get_download_record emptyDB "tok" = none ∧
      get_package_row emptyDB "T1" = none ∧
      get_task_for_package emptyDB "D1" "bundle.zip" = none :=
  ⟨(lookups_absent_give_none emptyDB "tok" "T1" "D1" "bundle.zip").1
      (by simp [emptyDB]),
    (lookups_absent_give_none emptyDB "tok" "T1" "D1" "bundle.zip").2.1
      (by simp [emptyDB]),
    (lookups_absent_give_none emptyDB "tok" "T1" "D1" "bundle.zip").2.2
      (by simp [emptyDB])⟩

/-- C4: the lookup `get_task_for_package db dataset_id package` yields an `initiated`
value only of a task joined to a `package` row with that filename through
`generated_by` and itself belonging to `dataset_id`; when such a link is
unique it yields exactly that task's `initiated`; and when no such link
exists it yields the empty result. -/
theorem get_task_for_package_spec (db : DB) (dataset_id package : String) :
    (∀ ts, get_task_for_package db dataset_id package = some ts →
      ∃ t ∈ db.generate_task, ∃ p ∈ db.package,
        t.dataset_id = dataset_id ∧ p.filename = package ∧
          t.task_id = p.generated_by ∧ ts = t.initiated) ∧
    ((¬ ∃ t ∈ db.generate_task, ∃ p ∈ db.package,
        t.dataset_id = dataset_id ∧ p.filename = package ∧
          t.task_id = p.generated_by) →
      get_task_for_package db dataset_id package = none) ∧
    (∀ t₀ ∈ db.generate_task, ∀ p₀ ∈ db.package,
      t₀.dataset_id = dataset_id → p₀.filename = package →
        t₀.task_id = p₀.generated_by →
      (∀ t ∈ db.generate_task, ∀ p ∈ db.package,
        t.dataset_id = dataset_id → p.filename = package →
          t.task_id = p.generated_by → t = t₀) →
      get_task_for_package db dataset_id package = some t₀.initiated) := by
  refine ⟨?_, get_task_for_package_eq_none, ?_⟩
  · intro ts hts
    unfold get_task_for_package at hts
    cases hhead : ((joinTaskPackage db).filter (fun tp =>
        tp.1.dataset_id == dataset_id && tp.2.filename == package &&
          tp.1.task_id == tp.2.generated_by)).head? with
    | none => rw [hhead] at hts; simp at hts
    | some tp =>
      rw [hhead] at hts
      have htp := List.mem_of_mem_head? (l :=
        (joinTaskPackage db).filter (fun tp =>
          tp.1.dataset_id == dataset_id && tp.2.filename == package &&
            tp.1.task_id == tp.2.generated_by)) hhead
      obtain ⟨ht, hp, hds, hfn, hlink⟩ := mem_tfp_filter.mp htp
      have hts' : ts = tp.1.initiated := by
        simpa using hts.symm
      exact ⟨tp.1, ht, tp.2, hp, hds, hfn, hlink, hts'⟩
  · intro t₀ ht₀ p₀ hp₀ hds₀ hfn₀ hlink₀ huniq
    unfold get_task_for_package
    have hmem : (t₀, p₀) ∈ (joinTaskPackage db).filter (fun tp =>
        tp.1.dataset_id == dataset_id && tp.2.filename == package &&
          tp.1.task_id == tp.2.generated_by) :=
      mem_tfp_filter.mpr ⟨ht₀, hp₀, hds₀, hfn₀, hlink₀⟩
    cases hL : (joinTaskPackage db).filter (fun tp =>
        tp.1.dataset_id == dataset_id && tp.2.filename == package &&
          tp.1.task_id == tp.2.generated_by) with
    | nil => rw [hL] at hmem; cases hmem
    | cons y ys =>
      have hy : y ∈ (joinTaskPackage db).filter (fun tp =>
          tp.1.dataset_id == dataset_id && tp.2.filename == package &&
            tp.1.task_id == tp.2.generated_by) := by
        rw [hL]; exact List.mem_cons_self y ys
      obtain ⟨hty, hpy, hdsy, hfny, hlinky⟩ := mem_tfp_filter.mp hy
      have hyt₀ : y.1 = t₀ := huniq y.1 hty y.2 hpy hdsy hfny hlinky
      simp [hyt₀]

/-- Witness for C4: a one-task, one-package store where the package's
`generated_by` names the task. -/
theorem get_task_for_package_spec_witness :
    get_task_for_package
        ⟨[], [⟨"D1", "T1", some "SUCCESS", false, "2024-05-01 10:00:00", none⟩],
          [], [⟨"T1.zip", 100, "abc", "T1"⟩]⟩ "D1" "T1.zip" =
      some "2024-05-01 10:00:00" :=
  (get_task_for_package_spec
      ⟨[], [⟨"D1", "T1", some "SUCCESS", false, "2024-05-01 10:00:00", none⟩],
        [], [⟨"T1.zip", 100, "abc", "T1"⟩]⟩ "D1" "T1.zip").2.2
    ⟨"D1", "T1", some "SUCCESS", false, "2024-05-01 10:00:00", none⟩ (by decide)
    ⟨"T1.zip", 100, "abc", "T1"⟩ (by decide) rfl rfl rfl (by decide)

lemma create_download_record_ok {db db' : DB} {token filename : String}
    (h : create_download_record db token filename = .ok db') :
    downloadTokenTaken db token = false ∧
      db' = { db with download := db.download ++ [⟨token, filename⟩] } := by
  unfold create_download_record at h
  cases htaken : downloadTokenTaken db token with
  | true => rw [htaken] at h; simp at h
  | false =>
    rw [htaken] at h
    rw [if_neg (by simp)] at h
    exact ⟨rfl, (Except.ok.inj h).symm⟩

/-- C5: a successful `create_download_record` for token `t` and filename
`f` makes a subsequent `get_download_record t` return a record whose
filename is `f` (and token `t`). -/
theorem create_then_get_download_record (db : DB) (token filename : String)
    (db' : DB) (h : create_download_record db token filename = .ok db') :
    ∃ r, get_download_record db' token = some r ∧
      r.filename = filename ∧ r.token = token := by
  obtain ⟨htaken, hdb'⟩ := create_download_record_ok h
  have hnone : db.download.find? (fun row => row.token == token) = none := by
    rw [List.find?_eq_none]
    intro r hr
    have hall := List.any_eq_false.mp htaken
    exact hall r hr
  refine ⟨⟨token, filename⟩, ?_, rfl, rfl⟩
  unfold get_download_record
  rw [hdb']
  rw [List.find?_append, hnone]
  simp

/-- Witness for C5 at the empty store. -/
theorem create_then_get_download_record_witness :
    ∃ r, get_download_record
        ⟨[⟨"tok", "bundle.zip"⟩], [], [], []⟩ "tok" = some r ∧
      r.filename = "bundle.zip" ∧ r.token = "tok" :=
  create_then_get_download_record emptyDB "tok" "bundle.zip"
    ⟨[⟨"tok", "bundle.zip"⟩], [], [], []⟩ rfl

/-- C7: inserting the same token a second time fails with a constraint
violation, whatever filename the second insert carries. -/
theorem duplicate_token_insert_rejected (db : DB)
    (token filename filename2 : String) (db' : DB)
    (h : create_download_record db token filename = .ok db') :
    create_download_record db' token filename2 =
      .error .ConstraintViolation := by
  obtain ⟨-, hdb'⟩ := create_download_record_ok h
  have htaken : downloadTokenTaken db' token = true := by
    unfold downloadTokenTaken
    rw [List.any_eq_true]
    refine ⟨⟨token, filename⟩, ?_, by simp⟩
    rw [hdb']
    simp
  unfold create_download_record
  rw [htaken]
  rw [if_pos rfl]

/-- Witness for C7 at the empty store. -/
theorem duplicate_token_insert_rejected_witness :
    create_download_record ⟨[⟨"tok", "bundle.zip"⟩], [], [], []⟩
        "tok" "other.zip" = .error .ConstraintViolation :=
  duplicate_token_insert_rejected emptyDB "tok" "bundle.zip" "other.zip"
    ⟨[⟨"tok", "bundle.zip"⟩], [], [], []⟩ rfl

lemma insertScopes_of_fresh (task_id : String) (fps : List String) :
    ∀ tbl : List GenerateScopeRow,
      (∀ r ∈ tbl, r.task_id = task_id → r.filepath ∉ fps) → fps.Nodup →
      insertScopes tbl task_id fps =
        (tbl ++ fps.map (fun fp => ⟨task_id, fp⟩), none) := by
  induction fps with
  | nil => intro tbl _ _; simp [insertScopes]
  | cons fp rest ih =>
    intro tbl hfresh hnodup
    have hany : (tbl.any fun r =>
        r.task_id == task_id && r.filepath == fp) = false := by
      rw [List.any_eq_false]
      intro r hr
      simp only [Bool.and_eq_true, beq_iff_eq, not_and]
      intro ht hfp
      exact hfresh r hr ht (hfp ▸ List.mem_cons_self fp rest)
    have hstep : insertScope tbl ⟨task_id, fp⟩ = .ok (tbl ++ [⟨task_id, fp⟩]) := by
      unfold insertScope
      rw [hany]
      rw [if_neg (by simp)]
    have hfresh' : ∀ r ∈ tbl ++ [(⟨task_id, fp⟩ : GenerateScopeRow)],
        r.task_id = task_id → r.filepath ∉ rest := by
      intro r hr ht
      rcases List.mem_append.mp hr with hmem | hmem
      · exact fun hin => hfresh r hmem ht (List.mem_cons_of_mem fp hin)
      · have : r = (⟨task_id, fp⟩ : GenerateScopeRow) := by simpa using hmem
        rw [this]
        exact (List.nodup_cons.mp hnodup).1
    calc insertScopes tbl task_id (fp :: rest)
        = insertScopes (tbl ++ [⟨task_id, fp⟩]) task_id rest := by
          conv_lhs => simp only [insertScopes]
          rw [hstep]
      _ = (tbl ++ [⟨task_id, fp⟩] ++ rest.map (fun fp => ⟨task_id, fp⟩), none) :=
          ih (tbl ++ [⟨task_id, fp⟩]) hfresh' (List.nodup_cons.mp hnodup).2
      _ = (tbl ++ (fp :: rest).map (fun fp => ⟨task_id, fp⟩), none) := by
          simp

lemma create_task_rows_success (conn : Conn) (dataset_id task_id : String)
    ( is_partial : Bool) (scope : List String) (now : String)
    (hsync : conn.pending = conn.committed)
    (htask : ∀ r ∈ conn.committed.generate_task, r.task_id ≠ task_id)
    (hscope : ∀ r ∈ conn.committed.generate_scope, r.task_id ≠ task_id)
    (hnodup : scope.Nodup) :
    ∃ db' : DB,
      create_task_rows conn dataset_id task_id is_partial scope now =
        (⟨db', db'⟩,
          .ok (some ⟨dataset_id, task_id, some "PENDING", is_partial, now, none⟩)) ∧
      db'.generate_task = conn.committed.generate_task ++
        [⟨dataset_id, task_id, some "PENDING", is_partial, now, none⟩] ∧
      db'.generate_scope = conn.committed.generate_scope ++
        scope.map (fun fp => ⟨task_id, fp⟩) ∧
      db'.download = conn.committed.download ∧
      db'.package = conn.committed.package := by
  have hanyT : (conn.pending.generate_task.any fun r =>
      r.task_id == task_id) = false := by
    rw [List.any_eq_false]
    intro r hr
    rw [hsync] at hr
    simpa using htask r hr
  have hinsT : insertTask conn.pending.generate_task
      ⟨dataset_id, task_id, some "PENDING", is_partial, now, none⟩ =
      .ok (conn.pending.generate_task ++
        [⟨dataset_id, task_id, some "PENDING", is_partial, now, none⟩]) := by
    unfold insertTask
    rw [hanyT]
    rw [if_neg (by simp)]
  have hfreshS : ∀ r ∈ conn.pending.generate_scope,
      r.task_id = task_id → r.filepath ∉ scope := by
    intro r hr ht
    rw [hsync] at hr
    exact absurd ht (hscope r hr)
  have hinsS := insertScopes_of_fresh task_id scope
    conn.pending.generate_scope hfreshS hnodup
  have hfind : ((conn.pending.generate_task ++
      [(⟨dataset_id, task_id, some "PENDING", is_partial, now, none⟩ :
        GenerateTaskRow)]).find? (fun r => r.task_id == task_id)) =
      some ⟨dataset_id, task_id, some "PENDING", is_partial, now, none⟩ := by
    rw [List.find?_append]
    have hnone : conn.pending.generate_task.find?
        (fun r => r.task_id == task_id) = none := by
      rw [List.find?_eq_none]
      intro r hr
      rw [hsync] at hr
      simpa using htask r hr
    rw [hnone]
    simp
  refine ⟨{ conn.pending with
      generate_task := conn.pending.generate_task ++
        [⟨dataset_id, task_id, some "PENDING", is_partial, now, none⟩],
      generate_scope := conn.pending.generate_scope ++
        scope.map (fun fp => ⟨task_id, fp⟩) }, ?_, ?_, ?_, ?_, ?_⟩
  · unfold create_task_rows
    simp only [hinsT, hinsS, hfind]
  · simp [hsync]
  · simp [hsync]
  · simp [hsync]
  · simp [hsync]

/-- C1: a successful `create_task_rows` commits, in one transaction,
exactly one new `generate_task` row — status PENDING, `initiated` the
current time, `date_done` NULL — plus one `generate_scope` row per
filepath of the scope, leaves the other tables untouched, and returns
the freshly committed task row carrying initiated, task_id, status and
date_done. -/
theorem create_task_rows_commits_task_and_scope (conn : Conn)
    (dataset_id task_id : String) ( is_partial : Bool)
    (scope : List String) (now : String)
    (hsync : conn.pending = conn.committed)
    (htask : ∀ r ∈ conn.committed.generate_task, r.task_id ≠ task_id)
    (hscope : ∀ r ∈ conn.committed.generate_scope, r.task_id ≠ task_id)
    (hnodup : scope.Nodup) :
    ∃ db' : DB,
      create_task_rows conn dataset_id task_id is_partial scope now =
        (⟨db', db'⟩,
          .ok (some ⟨dataset_id, task_id, some "PENDING", is_partial, now, none⟩)) ∧
      db'.generate_task = conn.committed.generate_task ++
        [⟨dataset_id, task_id, some "PENDING", is_partial, now, none⟩] ∧
      db'.generate_scope = conn.committed.generate_scope ++
        scope.map (fun fp => ⟨task_id, fp⟩) ∧
      db'.download = conn.committed.download ∧
      db'.package = conn.committed.package :=
  create_task_rows_success conn dataset_id task_id is_partial scope now
    hsync htask hscope hnodup

/-- Witness for C1: creating task T1 with a two-file scope in an empty
store. -/
theorem create_task_rows_commits_task_and_scope_witness :
    ∃ db' : DB,
      create_task_rows ⟨emptyDB, emptyDB⟩ "D1" "T1" false
          ["a.txt", "b.txt"] "2024-05-01 10:00:00" =
        (⟨db', db'⟩,
          .ok (some ⟨"D1", "T1", some "PENDING", false,
            "2024-05-01 10:00:00", none⟩)) ∧
      db'.generate_task =
        emptyDB.generate_task ++
          [⟨"D1", "T1", some "PENDING", false, "2024-05-01 10:00:00", none⟩] ∧
      db'.generate_scope =
        emptyDB.generate_scope ++
          (["a.txt", "b.txt"]).map (fun fp => ⟨"T1", fp⟩) ∧
      db'.download = emptyDB.download ∧
      db'.package = emptyDB.package :=
  create_task_rows_commits_task_and_scope ⟨emptyDB, emptyDB⟩ "D1" "T1"
    false ["a.txt", "b.txt"] "2024-05-01 10:00:00" rfl
    (by simp [emptyDB]) (by simp [emptyDB]) (by decide)

/-- C2: when `create_task_rows` fails — in particular after the task row
and part of the scope rows were executed but before the commit — the
committed store, which is all any other unit of work can read, is
unchanged; in particular no task row with the new task id becomes
visible to them. -/
theorem create_task_rows_failure_atomic (conn : Conn)
    (dataset_id task_id : String) ( is_partial : Bool)
    (scope : List String) (now : String) :
    (∀ (conn' : Conn) (e : SqlError),
      create_task_rows conn dataset_id task_id is_partial scope now =
          (conn', .error e) →
      conn'.committed = conn.committed ∧
      ((∀ r ∈ conn.committed.generate_task, r.task_id ≠ task_id) →
        ∀ r ∈ conn'.committed.generate_task, r.task_id ≠ task_id)) ∧
    (conn.pending = conn.committed →
      (∀ r ∈ conn.committed.generate_task, r.task_id ≠ task_id) →
      (∀ r ∈ conn.committed.generate_scope, r.task_id ≠ task_id) →
      scope.Nodup →
      ∃ db' : DB,
        (create_task_rows conn dataset_id task_id is_partial scope now).1 =
          ⟨db', db'⟩ ∧
        db'.generate_task = conn.committed.generate_task ++
          [⟨dataset_id, task_id, some "PENDING", is_partial, now, none⟩] ∧
        db'.generate_scope = conn.committed.generate_scope ++
          scope.map (fun fp => ⟨task_id, fp⟩)) := by
  constructor
  · intro conn' e h
    have hcomm : conn'.committed = conn.committed := by
      simp only [create_task_rows] at h
      cases hT : insertTask conn.pending.generate_task
          ⟨dataset_id, task_id, some "PENDING", is_partial, now, none⟩ with
      | error e' =>
        rw [hT] at h
        simp only [] at h
        have := (Prod.mk.injEq _ _ _ _).mp h
        rw [← this.1]
      | ok tasks1 =>
        rw [hT] at h
        cases hS : insertScopes conn.pending.generate_scope task_id scope with
        | mk scopes1 oerr =>
          rw [hS] at h
          cases oerr with
          | some e' =>
            have := (Prod.mk.injEq _ _ _ _).mp h
            rw [← this.1]
          | none =>
            exact absurd ((Prod.mk.injEq _ _ _ _).mp h).2 (by simp)
    exact ⟨hcomm, fun hfresh r hr => hfresh r (hcomm ▸ hr)⟩
  · intro hsync htask hscope hnodup
    obtain ⟨db', heq, htask', hscope', -, -⟩ :=
      create_task_rows_success conn dataset_id task_id is_partial scope now
        hsync htask hscope hnodup
    exact ⟨db', by rw [heq], htask', hscope'⟩

/-- Witness for C2: a duplicate filepath in the scope makes the second
scope insert fail after the task row was executed; the committed store
stays empty. -/
theorem create_task_rows_failure_atomic_witness :
    (create_task_rows ⟨emptyDB, emptyDB⟩ "D1" "T1" false
        ["a.txt", "a.txt"] "2024-05-01 10:00:00").1.committed = emptyDB ∧
    (∀ r ∈ (create_task_rows ⟨emptyDB, emptyDB⟩ "D1" "T1" false
        ["a.txt", "a.txt"] "2024-05-01 10:00:00").1.committed.generate_task,
      r.task_id ≠ "T1") :=
  have happ := (create_task_rows_failure_atomic ⟨emptyDB, emptyDB⟩
    "D1" "T1" false ["a.txt", "a.txt"] "2024-05-01 10:00:00").1
    (create_task_rows ⟨emptyDB, emptyDB⟩ "D1" "T1" false
        ["a.txt", "a.txt"] "2024-05-01 10:00:00").1
    .ConstraintViolation rfl
  ⟨happ.1, happ.2 (by simp [emptyDB])⟩

/-- C6: after a successful `create_task_rows` with scope `scope`, the set
returned by `get_generate_scope_filepaths` on the committed store is
exactly the set of the filepaths of `scope` — order-independent and
duplicate-free — and for a task id with no scope rows (in particular a
task that does not exist) the returned set is empty. -/
theorem scope_roundtrip (conn : Conn) (dataset_id task_id : String)
    ( is_partial : Bool) (scope : List String) (now : String)
    (hsync : conn.pending = conn.committed)
    (htask : ∀ r ∈ conn.committed.generate_task, r.task_id ≠ task_id)
    (hscope : ∀ r ∈ conn.committed.generate_scope, r.task_id ≠ task_id)
    (hnodup : scope.Nodup) :
    get_generate_scope_filepaths
        (create_task_rows conn dataset_id task_id is_partial scope now).1.committed
        task_id = scope.toFinset ∧
    (∀ (db : DB) (tid : String),
      (∀ r ∈ db.generate_scope, r.task_id ≠ tid) →
      get_generate_scope_filepaths db tid = ∅) := by
  constructor
  · obtain ⟨db', heq, -, hscope', -, -⟩ :=
      create_task_rows_success conn dataset_id task_id is_partial scope now
        hsync htask hscope hnodup
    rw [heq]
    unfold get_generate_scope_filepaths
    rw [show ((⟨db', db'⟩ : Conn),
        (.ok (some ⟨dataset_id, task_id, some "PENDING", is_partial, now, none⟩) :
          Except SqlError (Option GenerateTaskRow))).1.committed = db' from rfl]
    rw [hscope']
    rw [List.filter_append]
    have h1 : conn.committed.generate_scope.filter
        (fun row => row.task_id == task_id) = [] := by
      rw [List.filter_eq_nil_iff]
      intro r hr
      simpa using hscope r hr
    have h2 : (scope.map (fun fp => (⟨task_id, fp⟩ : GenerateScopeRow))).filter
        (fun row => row.task_id == task_id) =
        scope.map (fun fp => ⟨task_id, fp⟩) := by
      rw [List.filter_eq_self]
      intro r hr
      obtain ⟨fp, -, rfl⟩ := List.mem_map.mp hr
      simp
    rw [h1, h2]
    rw [List.nil_append, List.map_map]
    have hid : List.map ((fun row => GenerateScopeRow.filepath row) ∘ fun fp =>
        (⟨task_id, fp⟩ : GenerateScopeRow)) scope = scope :=
      List.map_id'' (fun fp => rfl) scope
    exact congrArg List.toFinset hid
  · intro db tid hnone
    unfold get_generate_scope_filepaths
    have hfil : db.generate_scope.filter (fun row => row.task_id == tid) = [] := by
      rw [List.filter_eq_nil_iff]
      intro r hr
      simpa using hnone r hr
    rw [hfil]
    simp

/-- Witness for C6: a two-file scope read back from the committed store,
and the empty set for a task id with no scope rows. -/
theorem scope_roundtrip_witness :
    get_generate_scope_filepaths
        (create_task_rows ⟨emptyDB, emptyDB⟩ "D1" "T1" false
          ["a.txt", "b.txt"] "2024-05-01 10:00:00").1.committed "T1" =
      (["a.txt", "b.txt"] : List String).toFinset ∧
    get_generate_scope_filepaths emptyDB "T9" = ∅ :=
  have happ := scope_roundtrip ⟨emptyDB, emptyDB⟩ "D1" "T1" false
    ["a.txt", "b.txt"] "2024-05-01 10:00:00" rfl
    (by simp [emptyDB]) (by simp [emptyDB]) (by decide)
  ⟨happ.1, happ.2 emptyDB "T9" (by simp [emptyDB])⟩

lemma get_db_stable {s : GState} {h : Nat} (hdb : s.db = some h) :
    get_db s = (s, h) := by
  unfold get_db
  rw [hdb]

lemma get_db_iterate_stable {s : GState} {h : Nat} (hdb : s.db = some h) :
    ∀ n, get_db_iterate n s = s := by
  intro n
  induction n with
  | zero => rfl
  | succ n ih =>
    unfold get_db_iterate
    rw [get_db_stable hdb]
    exact ih

/-- C8: within one unit of work `get_db` opens at most one physical
connection — the first call creates it lazily, and calling `get_db`
again returns the same state and handle — while `close_db` closes the
handle exactly when one was opened, is a no-op when none was opened,
and is idempotent when called again. -/
theorem connection_scope_spec (s : GState) :
    (s.db = none →
      ∀ n, (get_db_iterate n s).connectCount ≤ s.connectCount + 1) ∧
    (get_db (get_db s).1 = ((get_db s).1, (get_db s).2)) ∧
    (s.db = none → close_db s = s) ∧
    (∀ h, s.db = some h →
      (close_db s).db = none ∧
        (close_db s).closeCount = s.closeCount + 1) ∧
    (close_db (close_db s) = close_db s) := by
  refine ⟨?_, ?_, ?_, ?_, ?_⟩
  · intro hnone n
    cases n with
    | zero =>
      unfold get_db_iterate
      exact Nat.le_succ _
    | succ n =>
      unfold get_db_iterate
      have hstep : get_db s = (⟨some s.nextHandle, s.nextHandle + 1,
          s.connectCount + 1, s.closeCount⟩, s.nextHandle) := by
        unfold get_db
        rw [hnone]
      rw [hstep]
      rw [get_db_iterate_stable (h := s.nextHandle) rfl n]
  · cases hdb : s.db with
    | some h =>
      rw [get_db_stable hdb]
      exact get_db_stable hdb
    | none =>
      have hstep : get_db s = (⟨some s.nextHandle, s.nextHandle + 1,
          s.connectCount + 1, s.closeCount⟩, s.nextHandle) := by
        unfold get_db
        rw [hdb]
      rw [hstep]
      exact get_db_stable rfl
  · intro hnone
    unfold close_db
    rw [hnone]
  · intro h hdb
    unfold close_db
    rw [hdb]
    exact ⟨rfl, rfl⟩
  · cases hdb : s.db with
    | none =>
      have hc : close_db s = s := by
        unfold close_db
        rw [hdb]
      rw [hc]
      exact hc
    | some h =>
      have hc : close_db s =
          ⟨none, s.nextHandle, s.connectCount, s.closeCount + 1⟩ := by
        unfold close_db
        rw [hdb]
      rw [hc]
      rfl

/-- Witness for C8 at a fresh unit of work. -/
theorem connection_scope_spec_witness :
    (get_db_iterate 5 ⟨none, 0, 0, 0⟩).connectCount ≤ 0 + 1 ∧
      close_db ⟨none, 0, 0, 0⟩ = ⟨none, 0, 0, 0⟩ ∧
      (close_db ⟨some 0, 1, 1, 0⟩).db = none ∧
      close_db (close_db ⟨some 0, 1, 1, 0⟩) = close_db ⟨some 0, 1, 1, 0⟩ :=
  ⟨(connection_scope_spec ⟨none, 0, 0, 0⟩).1 rfl 5,
    (connection_scope_spec ⟨none, 0, 0, 0⟩).2.2.1 rfl,
    ((connection_scope_spec ⟨some 0, 1, 1, 0⟩).2.2.2.1 0 rfl).1,
    (connection_scope_spec ⟨some 0, 1, 1, 0⟩).2.2.2.2⟩

end Download
